import Mathlib

/-!
Shallow embedding of `src/kvs.py` (the `KVS` key-value store facade).

The embedding models the facade specialized to the transient in-memory
backend (a Python `dict`), which is what `KVS(':memory:')` constructs,
together with a call-recording model of an external backend exposing
`sync`/`close` (used for the lifecycle claims).  All `hasattr` capability
probes of the source are resolved statically for these backends:
a `dict` has `get`, `__setitem__`, `__delitem__`, `__contains__` but no
`set`, `delete`, `sync` or `close` method.

Python values are modelled as `Option α`: `none` is Python `None`
(the absence sentinel), `some a` a real value.  Byte strings are
`List Nat`.  Exceptions are modelled with `Except`.
-/

/-- Errors the facade can raise: `TypeError` from `KVS._convert`
(line 112 of the source) and `KeyError` from a backend lookup. -/
inductive PyErr where
  | typeError (msg : String)
  | keyError
deriving DecidableEq

deriving instance DecidableEq for Except

/-- UTF-8 encoding of a single character, as Python's `str.encode('UTF8')`
produces it (one to four bytes). -/
def utf8Char (c : Char) : List Nat :=
  let n := c.toNat
  if n < 128 then [n]
  else if n < 2048 then [192 + n / 64, 128 + n % 64]
  else if n < 65536 then [224 + n / 4096, 128 + (n / 64) % 64, 128 + n % 64]
  else [240 + n / 262144, 128 + (n / 4096) % 64, 128 + (n / 64) % 64, 128 + n % 64]

/-- UTF-8 encoding of a text string, modelling `key.encode(encoding = 'UTF8')`. -/
def utf8 (s : String) : List Nat :=
  s.data.flatMap utf8Char

/-- Logical keys accepted by `KVS._convert` (source lines 87-112), one
constructor per `isinstance` branch.  Python `float`, `complex`, `range`,
`tuple` and `frozenset` keys are abstracted by their `str(key)` text,
since the exact Python text-formatting algorithms (float shortest-repr,
hash-ordered set iteration) are outside this embedding; `int` is modelled
exactly, `str(n : int)` agreeing with `toString (n : Int)`.
`unsupported` stands for a key of any other type (list, dict, set, ...). -/
inductive PyKey where
  | bytes (b : List Nat)
  | str (t : String)
  | bytearray (b : List Nat)
  | int (n : Int)
  | float (r : String)
  | complex (r : String)
  | range (r : String)
  | tuple (r : String)
  | frozenset (r : String)
  | unsupported
deriving DecidableEq

/-- Embedding of the static method `KVS._convert` (source lines 87-112):
bytes pass through, text is UTF-8 encoded, a bytearray is copied to
immutable bytes, numerics and the hashable collections go through
`str(key).encode('UTF8')`, anything else raises `TypeError`. -/
def KVS_convert : PyKey → Except PyErr (List Nat)
  | .bytes b => .ok b
  | .str t => .ok (utf8 t)
  | .bytearray b => .ok b
  | .int n => .ok (utf8 (toString n))
  | .float r => .ok (utf8 r)
  | .complex r => .ok (utf8 r)
  | .range r => .ok (utf8 r)
  | .tuple r => .ok (utf8 r)
  | .frozenset r => .ok (utf8 r)
  | .unsupported => .error (.typeError "Unsupported type.")

/-- The transient backend: a Python `dict` mapping canonical byte keys to
stored byte values, modelled extensionally. -/
def Dict : Type := List Nat → Option (List Nat)

/-- Python `dict.get(key)` with its default of `None`. -/
def dictGet (d : Dict) (k : List Nat) : Option (List Nat) := d k

/-- Python `dict.__setitem__`. -/
def dictSet (d : Dict) (k v : List Nat) : Dict :=
  fun x => if x = k then some v else d x

/-- Python `dict.__delitem__`: raises `KeyError` when the key is absent. -/
def dictDelitem (d : Dict) (k : List Nat) : Except PyErr Dict :=
  match d k with
  | some _ => .ok (fun x => if x = k then none else d x)
  | none => .error .keyError

/-- Python `key in dict`. -/
def dictContains (d : Dict) (k : List Nat) : Bool :=
  (d k).isSome

/-- The serializer object held in `self._serialize`: the facade relies only
on its `dumps : value -> bytes` and `loads : bytes -> value` entry points.
`loads` returning `none` models it returning Python `None`. -/
structure Codec (α : Type) where
  dumps : α → List Nat
  loads : List Nat → Option α

/-- The `KVS` facade constructed over the transient in-memory backend
(`KVS(':memory:')`): the `__slots__` pair `_database`, `_serialize`. -/
structure KVSMem (α : Type) where
  _database : Dict
  _serialize : Codec α

/-- A freshly constructed in-memory store: `self._database = {}`. -/
def KVSMem.fresh {α : Type} (c : Codec α) : KVSMem α :=
  { _database := fun _ => none, _serialize := c }

/-- Embedding of `KVS.__getitem__` (source lines 153-169) on the dict
backend: convert the key, fetch via `database.get(key)` (default `None`),
then `return self._serialize.loads(value) if value else None` — both a
missing value and an empty byte string are falsy and yield `None`. -/
def KVSMem.getitem {α : Type} (s : KVSMem α) (key : PyKey) :
    Except PyErr (Option α) :=
  match KVS_convert key with
  | .error e => .error e
  | .ok k =>
    match dictGet s._database k with
    | none => .ok none
    | some bs => if bs = [] then .ok none else .ok (s._serialize.loads bs)

/-- Embedding of `KVS.__delitem__` (source lines 174-192) on the dict
backend: convert the key, attempt `database.__delitem__(key)` and swallow
`KeyError`, returning `None` in that case. -/
def KVSMem.delitem {α : Type} (s : KVSMem α) (key : PyKey) :
    Except PyErr (KVSMem α) :=
  match KVS_convert key with
  | .error e => .error e
  | .ok k =>
    match dictDelitem s._database k with
    | .ok d => .ok { s with _database := d }
    | .error _ => .ok s

/-- Embedding of `KVS.__setitem__` (source lines 126-148) on the dict
backend: convert the key; for a non-`None` value store
`self._serialize.dumps(value)` via `database.__setitem__`; for `None`
call `self.__delitem__` with the already-converted key instead. -/
def KVSMem.setitem {α : Type} (s : KVSMem α) (key : PyKey) (value : Option α) :
    Except PyErr (KVSMem α) :=
  match KVS_convert key with
  | .error e => .error e
  | .ok k =>
    match value with
    | some v =>
      .ok { s with _database := dictSet s._database k (s._serialize.dumps v) }
    | none => s.delitem (.bytes k)

/-- Alias `set = put = __setitem__` (source line 151). -/
def KVSMem.set {α : Type} (s : KVSMem α) (key : PyKey) (value : Option α) :
    Except PyErr (KVSMem α) :=
  s.setitem key value

/-- Alias `get = __getitem__` (source line 172). -/
def KVSMem.get {α : Type} (s : KVSMem α) (key : PyKey) :
    Except PyErr (Option α) :=
  s.getitem key

/-- Alias `delete = __delitem__` (source line 195). -/
def KVSMem.delete {α : Type} (s : KVSMem α) (key : PyKey) :
    Except PyErr (KVSMem α) :=
  s.delitem key

/-- Embedding of `KVS.__contains__` (source lines 114-124) on the dict
backend: a `dict` has `__contains__`, so the native `key in database`
membership test is used. -/
def KVSMem.contains {α : Type} (s : KVSMem α) (key : PyKey) :
    Except PyErr Bool :=
  match KVS_convert key with
  | .error e => .error e
  | .ok k => .ok (dictContains s._database k)

/-- The fallback branch of `KVS.__contains__` (source line 124), the path
taken when the backend lacks `__contains__`:
`self.__getitem__(key) is not None` with the already-converted key. -/
def KVSMem.containsFallback {α : Type} (s : KVSMem α) (key : PyKey) :
    Except PyErr Bool :=
  match KVS_convert key with
  | .error e => .error e
  | .ok k =>
    match s.getitem (.bytes k) with
    | .error e => .error e
    | .ok v => .ok v.isSome

/-- Embedding of `KVS.pop` (source lines 237-245):
`value = self.__getitem__(key); self.__delitem__(key); return value`. -/
def KVSMem.pop {α : Type} (s : KVSMem α) (key : PyKey) :
    Except PyErr (Option α × KVSMem α) :=
  match s.getitem key with
  | .error e => .error e
  | .ok v =>
    match s.delitem key with
    | .error e => .error e
    | .ok t => .ok (v, t)

/-- Embedding of `KVS.__call__` (source lines 63-77): with `value = None`
it reads via `__getitem__` and returns the result; otherwise it writes via
`__setitem__` and returns `None` (the method body has no `return`). -/
def KVSMem.call {α : Type} (s : KVSMem α) (key : PyKey) (value : Option α) :
    Except PyErr (Option α × KVSMem α) :=
  match value with
  | none =>
    match s.getitem key with
    | .error e => .error e
    | .ok v => .ok (v, s)
  | some v =>
    match s.setitem key (some v) with
    | .error e => .error e
    | .ok t => .ok ((none : Option α), t)

/-- Embedding of `KVS.sync` (source lines 287-294) on the dict backend:
a `dict` has no `sync` attribute, so the body does nothing. -/
def KVSMem.sync {α : Type} (s : KVSMem α) : KVSMem α := s

/-- Embedding of `KVS.close` (source lines 304-311) on the dict backend:
`self.sync()` then, since a `dict` has no `close` attribute, nothing. -/
def KVSMem.close {α : Type} (s : KVSMem α) : KVSMem α := s.sync

/-- Calls the facade forwards to an external backend. -/
inductive BCall where
  | sync
  | close
deriving DecidableEq

/-- An external backend object exposing native `sync` and `close` methods,
modelled by the trace of calls the facade has made on it.  The source
accepts any such object as `self._database` (lines 51-54). -/
structure ExtBackend where
  calls : List BCall
deriving DecidableEq

/-- The backend's `sync` method: records the call. -/
def extSync (b : ExtBackend) : ExtBackend := ⟨b.calls ++ [BCall.sync]⟩

/-- The backend's `close` method: records the call. -/
def extClose (b : ExtBackend) : ExtBackend := ⟨b.calls ++ [BCall.close]⟩

/-- Embedding of `KVS.sync` over an external backend exposing `sync`:
the `hasattr` probe succeeds, so `self._database.sync()` runs. -/
def KVS_sync_ext (b : ExtBackend) : ExtBackend := extSync b

/-- Embedding of `KVS.close` over an external backend exposing `sync` and
`close`: `self.sync()` then `self._database.close()`, on every call. -/
def KVS_close_ext (b : ExtBackend) : ExtBackend := extClose (KVS_sync_ext b)

/-! Helper lemmas about the embedded operations. -/

/-- Unfolding `getitem` once the key conversion is known. -/
theorem KVSMem.getitem_eq {α : Type} (s : KVSMem α) {k : PyKey} {kb : List Nat}
    (hk : KVS_convert k = .ok kb) :
    s.getitem k =
      match dictGet s._database kb with
      | none => .ok none
      | some bs => if bs = [] then .ok none else .ok (s._serialize.loads bs) := by
  unfold KVSMem.getitem
  rw [hk]

/-- A supported key that is absent from the backend reads as `None`. -/
theorem KVSMem.getitem_none {α : Type} (s : KVSMem α) {k : PyKey} {kb : List Nat}
    (hk : KVS_convert k = .ok kb) (h : s._database kb = none) :
    s.getitem k = .ok none := by
  rw [s.getitem_eq hk]
  unfold dictGet
  rw [h]

/-- Unfolding `delitem` once the key conversion is known. -/
theorem KVSMem.delitem_eq {α : Type} (s : KVSMem α) {k : PyKey} {kb : List Nat}
    (hk : KVS_convert k = .ok kb) :
    s.delitem k =
      match dictDelitem s._database kb with
      | .ok d => .ok { s with _database := d }
      | .error _ => .ok s := by
  unfold KVSMem.delitem
  rw [hk]

/-- Deleting an absent key raises `KeyError` inside the backend. -/
theorem dictDelitem_none {d : Dict} {k : List Nat} (h : d k = none) :
    dictDelitem d k = .error .keyError := by
  unfold dictDelitem
  rw [h]

/-- Deleting a present key removes exactly that key. -/
theorem dictDelitem_some {d : Dict} {k : List Nat} {bs : List Nat}
    (h : d k = some bs) :
    dictDelitem d k = .ok (fun x => if x = k then none else d x) := by
  unfold dictDelitem
  rw [h]

/-- The facade's `delitem` always succeeds on a supported key (the backend's
`KeyError` is swallowed), removing the canonical key and nothing else. -/
theorem KVSMem.delitem_ok {α : Type} (s : KVSMem α) {k : PyKey} {kb : List Nat}
    (hk : KVS_convert k = .ok kb) :
    ∃ t, s.delitem k = .ok t ∧ t._serialize = s._serialize ∧
      t._database kb = none ∧ ∀ x, x ≠ kb → t._database x = s._database x := by
  rw [s.delitem_eq hk]
  cases h : s._database kb with
  | none =>
    rw [dictDelitem_none h]
    exact ⟨s, rfl, rfl, h, fun _ _ => rfl⟩
  | some bs =>
    rw [dictDelitem_some h]
    refine ⟨_, rfl, rfl, ?_, ?_⟩
    · simp
    · intro x hx
      simp [hx]

/-- In `__setitem__`, a `None` value routes to `__delitem__` with the
already-converted key, which behaves like deleting the original key. -/
theorem KVSMem.setitem_none_eq_delitem {α : Type} (s : KVSMem α) {k : PyKey}
    {kb : List Nat} (hk : KVS_convert k = .ok kb) :
    s.setitem k none = s.delitem k := by
  unfold KVSMem.setitem
  rw [hk]
  show s.delitem (PyKey.bytes kb) = s.delitem k
  rw [@KVSMem.delitem_eq α s (PyKey.bytes kb) kb rfl, s.delitem_eq hk]

/-- In `__setitem__`, a real value is encoded with `dumps` and stored. -/
theorem KVSMem.setitem_some_eq {α : Type} (s : KVSMem α) {k : PyKey}
    {kb : List Nat} (hk : KVS_convert k = .ok kb) (v : α) :
    s.setitem k (some v) =
      .ok { s with _database := dictSet s._database kb (s._serialize.dumps v) } := by
  unfold KVSMem.setitem
  rw [hk]

/-- A successful `delitem` keeps the serializer and only removes entries:
every entry of the result was already present. -/
theorem KVSMem.delitem_database {α : Type} {s t : KVSMem α} {k : PyKey}
    (h : s.delitem k = .ok t) :
    t._serialize = s._serialize ∧
    ∀ x bs, t._database x = some bs → s._database x = some bs := by
  cases hc : KVS_convert k with
  | error e =>
    have he : s.delitem k = .error e := by
      unfold KVSMem.delitem
      rw [hc]
    rw [he] at h
    cases h
  | ok kb =>
    rw [s.delitem_eq hc] at h
    cases hd : s._database kb with
    | none =>
      rw [dictDelitem_none hd] at h
      injection h with h
      subst h
      exact ⟨rfl, fun _ _ hb => hb⟩
    | some bs =>
      rw [dictDelitem_some hd] at h
      injection h with h
      subst h
      refine ⟨rfl, fun x bs' hb => ?_⟩
      by_cases hx : x = kb
      · simp [hx] at hb
      · simpa [hx] using hb

/-- A successful `setitem` keeps the serializer; every entry of the result
either was already present or holds the freshly encoded value. -/
theorem KVSMem.setitem_database {α : Type} {s t : KVSMem α} {k : PyKey}
    {v : Option α} (h : s.setitem k v = .ok t) :
    t._serialize = s._serialize ∧
    ∀ x bs, t._database x = some bs →
      s._database x = some bs ∨ ∃ a, v = some a ∧ bs = s._serialize.dumps a := by
  cases hc : KVS_convert k with
  | error e =>
    have he : s.setitem k v = .error e := by
      unfold KVSMem.setitem
      rw [hc]
    rw [he] at h
    cases h
  | ok kb =>
    cases v with
    | some a =>
      rw [s.setitem_some_eq hc a] at h
      injection h with h
      subst h
      refine ⟨rfl, fun x bs hb => ?_⟩
      unfold dictSet at hb
      by_cases hx : x = kb
      · right
        refine ⟨a, rfl, ?_⟩
        simp [hx] at hb
        exact hb.symm
      · left
        simpa [hx] using hb
    | none =>
      rw [s.setitem_none_eq_delitem hc] at h
      obtain ⟨hser, hsub⟩ := KVSMem.delitem_database h
      exact ⟨hser, fun x bs hb => .inl (hsub x bs hb)⟩

/-- A successful `pop` keeps the serializer and only removes entries. -/
theorem KVSMem.pop_database {α : Type} {s t : KVSMem α} {k : PyKey}
    {r : Option α} (h : s.pop k = .ok (r, t)) :
    t._serialize = s._serialize ∧
    ∀ x bs, t._database x = some bs → s._database x = some bs := by
  unfold KVSMem.pop at h
  cases hg : s.getitem k with
  | error e =>
    rw [hg] at h
    cases h
  | ok w =>
    rw [hg] at h
    cases hd : s.delitem k with
    | error e =>
      rw [hd] at h
      cases h
    | ok u =>
      rw [hd] at h
      injection h with h
      injection h with h1 h2
      subst h2
      exact KVSMem.delitem_database hd

/-- A successful `call` keeps the serializer; every entry of the result
either was already present or holds the freshly encoded value. -/
theorem KVSMem.call_database {α : Type} {s t : KVSMem α} {k : PyKey}
    {v r : Option α} (h : s.call k v = .ok (r, t)) :
    t._serialize = s._serialize ∧
    ∀ x bs, t._database x = some bs →
      s._database x = some bs ∨ ∃ a, v = some a ∧ bs = s._serialize.dumps a := by
  unfold KVSMem.call at h
  cases v with
  | none =>
    cases hg : s.getitem k with
    | error e =>
      rw [hg] at h
      cases h
    | ok w =>
      rw [hg] at h
      injection h with h
      injection h with h1 h2
      subst h2
      exact ⟨rfl, fun _ _ hb => .inl hb⟩
  | some a =>
    replace h : (match s.setitem k (some a) with
        | Except.error e => (Except.error e : Except PyErr (Option α × KVSMem α))
        | Except.ok u => Except.ok ((none : Option α), u)) = Except.ok (r, t) := h
    cases hs : s.setitem k (some a) with
    | error e =>
      rw [hs] at h
      cases h
    | ok u =>
      rw [hs] at h
      injection h with h
      injection h with h1 h2
      subst h2
      exact KVSMem.setitem_database hs

/-- A well-behaved serializer: `loads` inverts `dumps` and no value is
encoded to the empty byte string (both hold for the default
`SeCo(serialize = 'json', compress = 'zlib')` codec). -/
def GoodCodec {α : Type} (c : Codec α) : Prop :=
  (∀ v, c.loads (c.dumps v) = some v) ∧ ∀ v, c.dumps v ≠ []

/-- Every stored byte value is non-empty and decodes to a real value. -/
def GoodStore {α : Type} (s : KVSMem α) : Prop :=
  ∀ x bs, s._database x = some bs →
    bs ≠ [] ∧ (s._serialize.loads bs).isSome

/-- Store states reachable through the facade's own operations, starting
from a freshly constructed in-memory store. -/
inductive Reachable {α : Type} : KVSMem α → Prop where
  | fresh (c : Codec α) : Reachable (KVSMem.fresh c)
  | setStep (s t : KVSMem α) (k : PyKey) (v : Option α) :
      Reachable s → s.setitem k v = .ok t → Reachable t
  | delStep (s t : KVSMem α) (k : PyKey) :
      Reachable s → s.delitem k = .ok t → Reachable t
  | popStep (s t : KVSMem α) (k : PyKey) (r : Option α) :
      Reachable s → s.pop k = .ok (r, t) → Reachable t
  | callStep (s t : KVSMem α) (k : PyKey) (v r : Option α) :
      Reachable s → s.call k v = .ok (r, t) → Reachable t

/-- With a well-behaved serializer, every reachable store state only holds
non-empty byte values that decode to real values. -/
theorem reachable_goodStore {α : Type} {s : KVSMem α} (h : Reachable s) :
    GoodCodec s._serialize → GoodStore s := by
  induction h with
  | fresh c =>
    intro _ x bs hb
    simp [KVSMem.fresh] at hb
  | setStep s t k v hr hstep ih =>
    intro hc
    obtain ⟨hser, hsub⟩ := KVSMem.setitem_database hstep
    have hc0 : GoodCodec s._serialize := by rw [← hser]; exact hc
    intro x bs hb
    rw [hser]
    rcases hsub x bs hb with hold | ⟨a, _, rfl⟩
    · exact ih hc0 x bs hold
    · exact ⟨hc0.2 a, by rw [hc0.1 a]; rfl⟩
  | delStep s t k hr hstep ih =>
    intro hc
    obtain ⟨hser, hsub⟩ := KVSMem.delitem_database hstep
    have hc0 : GoodCodec s._serialize := by rw [← hser]; exact hc
    intro x bs hb
    rw [hser]
    exact ih hc0 x bs (hsub x bs hb)
  | popStep s t k r hr hstep ih =>
    intro hc
    obtain ⟨hser, hsub⟩ := KVSMem.pop_database hstep
    have hc0 : GoodCodec s._serialize := by rw [← hser]; exact hc
    intro x bs hb
    rw [hser]
    exact ih hc0 x bs (hsub x bs hb)
  | callStep s t k v r hr hstep ih =>
    intro hc
    obtain ⟨hser, hsub⟩ := KVSMem.call_database hstep
    have hc0 : GoodCodec s._serialize := by rw [← hser]; exact hc
    intro x bs hb
    rw [hser]
    rcases hsub x bs hb with hold | ⟨a, _, rfl⟩
    · exact ih hc0 x bs hold
    · exact ⟨hc0.2 a, by rw [hc0.1 a]; rfl⟩

/-! Concrete stores used to instantiate the general theorems. -/

/-- A simple concrete serializer for natural-number values: `dumps` tags the
value with a leading 1-byte, `loads` strips it. -/
def natCodec : Codec Nat :=
  { dumps := fun n => [1, n],
    loads := fun bs =>
      match bs with
      | [1, n] => some n
      | _ => none }

/-- A freshly constructed in-memory store over `natCodec`. -/
def natStore : KVSMem Nat := KVSMem.fresh natCodec

/-- A serializer whose `loads` inverts its `dumps` although `dumps` encodes
its only value to the empty byte string. -/
def emptyDumpsCodec : Codec Unit :=
  { dumps := fun _ => [], loads := fun _ => some () }

/-- A freshly constructed in-memory store over `emptyDumpsCodec`. -/
def emptyDumpsStore : KVSMem Unit := KVSMem.fresh emptyDumpsCodec

/-! Claim theorems. -/

/-- C4: `_convert` maps each supported key type as specified — bytes pass
through unchanged, text is UTF-8 encoded, a mutable bytearray is copied to
immutable bytes with the same content, integer/float/complex/range/tuple/
frozenset keys become their textual representation UTF-8 encoded, and any
other type fails with the `TypeError('Unsupported type.')` error rather
than being coerced.  Two concrete evaluations exercise the encodings. -/
theorem C4_normalize_mapping :
    (∀ b, KVS_convert (.bytes b) = .ok b) ∧
    (∀ t, KVS_convert (.str t) = .ok (utf8 t)) ∧
    (∀ b, KVS_convert (.bytearray b) = .ok b) ∧
    (∀ n : Int, KVS_convert (.int n) = .ok (utf8 (toString n))) ∧
    (∀ r, KVS_convert (.float r) = .ok (utf8 r)) ∧
    (∀ r, KVS_convert (.complex r) = .ok (utf8 r)) ∧
    (∀ r, KVS_convert (.range r) = .ok (utf8 r)) ∧
    (∀ r, KVS_convert (.tuple r) = .ok (utf8 r)) ∧
    (∀ r, KVS_convert (.frozenset r) = .ok (utf8 r)) ∧
    KVS_convert (.str "abc") = .ok [97, 98, 99] ∧
    KVS_convert (.int (-12)) = .ok [45, 49, 50] ∧
    KVS_convert .unsupported = .error (.typeError "Unsupported type.") :=
  ⟨fun _ => rfl, fun _ => rfl, fun _ => rfl, fun _ => rfl, fun _ => rfl,
   fun _ => rfl, fun _ => rfl, fun _ => rfl, fun _ => rfl,
   by decide, by decide, rfl⟩

/-- C5: key normalization is deterministic — equal logical keys always
normalize to the same canonical key, and `_convert` takes no store argument
at all, so the result cannot depend on store state — and the intentional
collision holds: the integer `1`, the text `"1"` and the byte sequence
`b"1"` all normalize to the same canonical byte key `[49]`. -/
theorem C5_normalize_determinism_collision :
    (∀ j k : PyKey, j = k → KVS_convert j = KVS_convert k) ∧
    KVS_convert (.int 1) = .ok [49] ∧
    KVS_convert (.str "1") = .ok [49] ∧
    KVS_convert (.bytes [49]) = .ok [49] :=
  ⟨fun _ _ h => h ▸ rfl, by decide, by decide, rfl⟩

/-- Witness for C5 at the concrete collision triple. -/
theorem C5_normalize_determinism_collision_witness :
    KVS_convert (.int 1) = KVS_convert (.int 1) ∧
    KVS_convert (.int 1) = .ok [49] :=
  ⟨C5_normalize_determinism_collision.1 (.int 1) (.int 1) rfl,
   C5_normalize_determinism_collision.2.1⟩

/-- C9: invoking the facade with only a key (Python defaults the second
parameter to `None`) performs `__getitem__` and returns its result with
the store unchanged; invoking it with a key and a real value performs
`__setitem__` (and returns `None`, since the branch has no `return`). -/
theorem C9_call_dispatch {α : Type} (s : KVSMem α) (k : PyKey) (v : α) :
    s.call k none = (s.getitem k).map (fun r => (r, s)) ∧
    s.call k (some v) =
      (s.setitem k (some v)).map (fun t => ((none : Option α), t)) := by
  constructor
  · unfold KVSMem.call
    cases h : s.getitem k <;> simp [Except.map]
  · unfold KVSMem.call
    show (match s.setitem k (some v) with
        | Except.error e => (Except.error e : Except PyErr (Option α × KVSMem α))
        | Except.ok t => Except.ok (none, t)) =
      (s.setitem k (some v)).map (fun t => ((none : Option α), t))
    cases h : s.setitem k (some v) <;> simp [Except.map]

/-- C1 (amended): the round-trip holds when, in addition to `loads`
inverting `dumps`, the encoded form of the value is a non-empty byte
string: after `set(k, v)`, `get(k)` returns `v`, for any prior backend
state.  The extra hypothesis is forced by `__getitem__`'s truthiness test,
which maps an empty stored byte string to `None`. -/
theorem C1_roundtrip_nonempty_dumps {α : Type} (s : KVSMem α) (k : PyKey)
    (kb : List Nat) (v : α)
    (hk : KVS_convert k = .ok kb)
    (hrt : s._serialize.loads (s._serialize.dumps v) = some v)
    (hne : s._serialize.dumps v ≠ []) :
    ∃ t, s.setitem k (some v) = .ok t ∧ t.getitem k = .ok (some v) := by
  refine ⟨_, s.setitem_some_eq hk v, ?_⟩
  rw [KVSMem.getitem_eq _ hk]
  show (match dictGet (dictSet s._database kb (s._serialize.dumps v)) kb with
    | none => Except.ok none
    | some bs =>
      if bs = [] then Except.ok none else Except.ok (s._serialize.loads bs)) =
    Except.ok (some v)
  unfold dictGet dictSet
  simp [hne, hrt]

/-- Witness for C1 (amended) at a concrete store, key and value. -/
theorem C1_roundtrip_nonempty_dumps_witness :
    ∃ t, natStore.setitem (.str "a") (some 5) = .ok t ∧
      t.getitem (.str "a") = .ok (some 5) :=
  C1_roundtrip_nonempty_dumps natStore (.str "a") (utf8 "a") 5 rfl rfl
    (by decide)

/-- C1 counterexample: with a serializer whose `loads` does invert its
`dumps` but whose `dumps` yields the empty byte string, `set(k, v)`
followed by `get(k)` returns the absence sentinel instead of `v`, because
`__getitem__` treats the stored empty byte string as falsy.  So the claim
as stated — round-trip under the sole assumption that `loads` inverts
`dumps` — is false. -/
theorem C1_roundtrip_counterexample :
    (∀ v : Unit,
      emptyDumpsStore._serialize.loads (emptyDumpsStore._serialize.dumps v) =
        some v) ∧
    ∃ t, emptyDumpsStore.setitem (.bytes [49]) (some ()) = .ok t ∧
      t.getitem (.bytes [49]) = .ok none :=
  ⟨fun _ => rfl, ⟨_, rfl, rfl⟩⟩

/-- C2: absence semantics — reading a supported key that is absent from
the backend returns the absence sentinel (`.ok none`, never an error);
setting the absence sentinel performs exactly `delete(key)` instead of
storing; and after `set(k, None)` a read of `k` returns the absence
sentinel, for any prior backend state. -/
theorem C2_absence_semantics {α : Type} (s : KVSMem α) (k : PyKey)
    (kb : List Nat) (hk : KVS_convert k = .ok kb) :
    (s._database kb = none → s.getitem k = .ok none) ∧
    s.setitem k none = s.delitem k ∧
    ∃ t, s.setitem k none = .ok t ∧ t.getitem k = .ok none := by
  obtain ⟨t, hdel, hser, hkb, hoth⟩ := s.delitem_ok hk
  refine ⟨fun h => s.getitem_none hk h, s.setitem_none_eq_delitem hk, t, ?_, ?_⟩
  · rw [s.setitem_none_eq_delitem hk]
    exact hdel
  · exact t.getitem_none hk hkb

/-- Witness for C2 at a concrete store and key. -/
theorem C2_absence_semantics_witness :
    (natStore._database (utf8 "b") = none →
      natStore.getitem (.str "b") = .ok none) ∧
    natStore.setitem (.str "b") none = natStore.delitem (.str "b") ∧
    ∃ t, natStore.setitem (.str "b") none = .ok t ∧
      t.getitem (.str "b") = .ok none :=
  C2_absence_semantics natStore (.str "b") (utf8 "b") rfl

/-- C3: idempotent delete — deleting a supported key always succeeds,
in particular when the key is absent (the backend's `KeyError` is
swallowed and the store is returned unchanged), so two deletes in a row
both succeed and leave the key absent, for any prior backend state. -/
theorem C3_idempotent_delete {α : Type} (s : KVSMem α) (k : PyKey)
    (kb : List Nat) (hk : KVS_convert k = .ok kb) :
    (s._database kb = none → s.delitem k = .ok s) ∧
    ∃ t u, s.delitem k = .ok t ∧ t.delitem k = .ok u ∧
      u._database kb = none := by
  constructor
  · intro h
    rw [s.delitem_eq hk, dictDelitem_none h]
  · obtain ⟨t, hdel, _, hkb, _⟩ := s.delitem_ok hk
    obtain ⟨u, hdel2, _, hkb2, _⟩ := t.delitem_ok hk
    exact ⟨t, u, hdel, hdel2, hkb2⟩

/-- Witness for C3 at a concrete store and key. -/
theorem C3_idempotent_delete_witness :
    (natStore._database (utf8 "c") = none →
      natStore.delitem (.str "c") = .ok natStore) ∧
    ∃ t u, natStore.delitem (.str "c") = .ok t ∧
      t.delitem (.str "c") = .ok u ∧ u._database (utf8 "c") = none :=
  C3_idempotent_delete natStore (.str "c") (utf8 "c") rfl

/-- C7: `pop(k)` returns exactly what `get(k)` would have returned
immediately before the call and removes the entry, so a subsequent
`get(k)` returns the absence sentinel; and when the key is absent, the
returned value is the absence sentinel (no error is raised). -/
theorem C7_pop_spec {α : Type} (s : KVSMem α) (k : PyKey) (kb : List Nat)
    (hk : KVS_convert k = .ok kb) :
    ∃ r t, s.getitem k = .ok r ∧ s.pop k = .ok (r, t) ∧
      t.getitem k = .ok none ∧ (s._database kb = none → r = none) := by
  obtain ⟨t, hdel, hser, hkb, hoth⟩ := s.delitem_ok hk
  have htget : t.getitem k = .ok none := t.getitem_none hk hkb
  have hg := s.getitem_eq hk
  have hpop : ∀ r, s.getitem k = .ok r → s.pop k = .ok (r, t) := by
    intro r hr
    unfold KVSMem.pop
    rw [hr, hdel]
  cases hdb : s._database kb with
  | none =>
    have h1 : s.getitem k = .ok none := s.getitem_none hk hdb
    exact ⟨none, t, h1, hpop none h1, htget, fun _ => rfl⟩
  | some bs =>
    by_cases hbs : bs = []
    · have h1 : s.getitem k = .ok none := by
        rw [hg]
        unfold dictGet
        rw [hdb]
        simp [hbs]
      exact ⟨none, t, h1, hpop none h1, htget, fun _ => rfl⟩
    · have h1 : s.getitem k = .ok (s._serialize.loads bs) := by
        rw [hg]
        unfold dictGet
        rw [hdb]
        simp [hbs]
      refine ⟨s._serialize.loads bs, t, h1, hpop _ h1, htget, fun hc => ?_⟩
      exact Option.noConfusion hc

/-- Witness for C7 at a concrete store and key. -/
theorem C7_pop_spec_witness :
    ∃ r t, natStore.getitem (.str "d") = .ok r ∧
      natStore.pop (.str "d") = .ok (r, t) ∧
      t.getitem (.str "d") = .ok none ∧
      (natStore._database (utf8 "d") = none → r = none) :=
  C7_pop_spec natStore (.str "d") (utf8 "d") rfl

/-- C10: frame property on the transient in-memory backend — a successful
`set(k, v)` or `delete(k)` leaves every entry stored under a canonical
key different from `normalize(k)` unchanged, and leaves the store's
serializer reference unchanged. -/
theorem C10_frame_property {α : Type} (s : KVSMem α) (k : PyKey)
    (kb : List Nat) (v : Option α) (hk : KVS_convert k = .ok kb) :
    (∀ t, s.setitem k v = .ok t →
      t._serialize = s._serialize ∧
      ∀ x, x ≠ kb → t._database x = s._database x) ∧
    (∀ t, s.delitem k = .ok t →
      t._serialize = s._serialize ∧
      ∀ x, x ≠ kb → t._database x = s._database x) := by
  have hdel : ∀ t, s.delitem k = .ok t →
      t._serialize = s._serialize ∧
      ∀ x, x ≠ kb → t._database x = s._database x := by
    intro t ht
    obtain ⟨u, hdel, hser, hkb, hoth⟩ := s.delitem_ok hk
    rw [hdel] at ht
    injection ht with ht
    subst ht
    exact ⟨hser, fun x hx => hoth x hx⟩
  refine ⟨?_, hdel⟩
  intro t ht
  cases v with
  | none =>
    rw [s.setitem_none_eq_delitem hk] at ht
    exact hdel t ht
  | some a =>
    rw [s.setitem_some_eq hk a] at ht
    injection ht with ht
    subst ht
    refine ⟨rfl, fun x hx => ?_⟩
    show dictSet s._database kb (s._serialize.dumps a) x = s._database x
    unfold dictSet
    simp [hx]

/-- Witness for C10 at a concrete store, key and value. -/
theorem C10_frame_property_witness :
    (∀ t, natStore.setitem (.str "a") (some 5) = .ok t →
      t._serialize = natStore._serialize ∧
      ∀ x, x ≠ utf8 "a" → t._database x = natStore._database x) ∧
    (∀ t, natStore.delitem (.str "a") = .ok t →
      t._serialize = natStore._serialize ∧
      ∀ x, x ≠ utf8 "a" → t._database x = natStore._database x) :=
  C10_frame_property natStore (.str "a") (utf8 "a") (some 5) rfl

/-- C6 (amended): containment agreement — on any store state reachable
through the facade's own operations whose serializer is well-behaved
(`loads` inverts `dumps` and `dumps` never yields the empty byte string,
as the default codec guarantees), `__contains__`'s backend-native
membership test and its get-based fallback return the same boolean, and
that boolean is true exactly when `get` would not return the absence
sentinel. -/
theorem C6_contains_agreement {α : Type} (s : KVSMem α) (k : PyKey)
    (kb : List Nat) (hreach : Reachable s) (hcod : GoodCodec s._serialize)
    (hk : KVS_convert k = .ok kb) :
    ∃ r : Option α, s.getitem k = .ok r ∧
      s.contains k = .ok r.isSome ∧ s.containsFallback k = .ok r.isSome := by
  have hgood := reachable_goodStore hreach hcod
  have hcont : s.contains k = .ok (dictContains s._database kb) := by
    unfold KVSMem.contains
    rw [hk]
  have hfall : ∀ b, s.getitem (.bytes kb) = .ok b →
      s.containsFallback k = .ok b.isSome := by
    intro b hb
    unfold KVSMem.containsFallback
    rw [hk]
    show (match s.getitem (.bytes kb) with
      | Except.error e => (Except.error e : Except PyErr Bool)
      | Except.ok v => Except.ok v.isSome) = Except.ok b.isSome
    rw [hb]
  have hg := s.getitem_eq hk
  have hgb := KVSMem.getitem_eq s (k := PyKey.bytes kb) rfl
  cases hdb : s._database kb with
  | none =>
    have h1 : s.getitem k = .ok none := s.getitem_none hk hdb
    have h2 : s.getitem (.bytes kb) = .ok none :=
      KVSMem.getitem_none s (k := PyKey.bytes kb) rfl hdb
    refine ⟨none, h1, ?_, hfall none h2⟩
    rw [hcont]
    unfold dictContains
    rw [hdb]
    rfl
  | some bs =>
    obtain ⟨hne, hsome⟩ := hgood kb bs hdb
    obtain ⟨a, ha⟩ := Option.isSome_iff_exists.mp hsome
    have h1 : s.getitem k = .ok (some a) := by
      rw [hg]
      unfold dictGet
      rw [hdb]
      simp [hne, ha]
    have h2 : s.getitem (.bytes kb) = .ok (some a) := by
      rw [hgb]
      unfold dictGet
      rw [hdb]
      simp [hne, ha]
    refine ⟨some a, h1, ?_, hfall (some a) h2⟩
    rw [hcont]
    unfold dictContains
    rw [hdb]
    rfl

/-- Witness for C6 (amended) at a freshly constructed concrete store. -/
theorem C6_contains_agreement_witness :
    ∃ r : Option Nat, natStore.getitem (.str "a") = .ok r ∧
      natStore.contains (.str "a") = .ok r.isSome ∧
      natStore.containsFallback (.str "a") = .ok r.isSome :=
  C6_contains_agreement natStore (.str "a") (utf8 "a")
    (Reachable.fresh natCodec)
    ⟨fun _ => rfl, fun v => List.cons_ne_nil 1 [v]⟩
    rfl

/-- C6 counterexample: the facade accepts any caller-supplied serializer,
and with one whose `dumps` yields the empty byte string, a state reached
by a single facade `set` makes the backend-native membership test return
true while the get-based fallback returns false (and `get` returns the
absence sentinel).  So the two containment answers do not agree on every
reachable state, as the claim as stated would require. -/
theorem C6_contains_counterexample :
    ∃ t, emptyDumpsStore.setitem (.bytes [49]) (some ()) = .ok t ∧
      t.contains (.bytes [49]) = .ok true ∧
      t.containsFallback (.bytes [49]) = .ok false ∧
      t.getitem (.bytes [49]) = .ok none :=
  ⟨_, rfl, rfl, rfl, rfl⟩

/-- C8 counterexample: over an external backend exposing native `sync` and
`close`, each facade `close()` re-invokes backend `sync()` then `close()`.
Closing twice is therefore not a no-op on the second call: the backend
receives `sync, close, sync, close` — its release operation runs twice. -/
theorem C8_close_counterexample :
    KVS_close_ext (KVS_close_ext ⟨[]⟩) ≠ KVS_close_ext ⟨[]⟩ ∧
    (KVS_close_ext (KVS_close_ext ⟨[]⟩)).calls =
      [BCall.sync, BCall.close, BCall.sync, BCall.close] := by
  refine ⟨?_, rfl⟩
  decide

/-- C8 (amended): `close()` performs `sync()` and then the backend's
`close` when the backend exposes one.  On the transient in-memory backend
neither probe fires, so `close()` is a pure no-op and calling it any
number of times is error-free and idempotent; on a backend exposing
`sync`/`close`, every `close()` call re-invokes backend `sync` then
`close` — the facade keeps no closed-state flag, so tolerance of the
repeated backend calls is the backend's responsibility. -/
theorem C8_close_behavior :
    (∀ (α : Type) (s : KVSMem α), s.close = s ∧ s.close.close = s.close) ∧
    ∀ b : ExtBackend,
      (KVS_close_ext b).calls = b.calls ++ [BCall.sync, BCall.close] := by
  refine ⟨fun α s => ⟨rfl, rfl⟩, fun b => ?_⟩
  show (b.calls ++ [BCall.sync]) ++ [BCall.close] =
    b.calls ++ [BCall.sync, BCall.close]
  rw [List.append_assoc]
  rfl
